import Mathlib

/-!
# family-event-form: verification of the spec claims against the code

Shallow embedding of the `maitreyad26/family-event-form` backend.  The
repository contains four concatenated revisions of the same Express server:

* `src/server.js`, first part  — flat-CSV storage ("flat variant"),
  namespace `FlatCsv` below;
* `src/server.js`, second part — MongoDB storage with a CSV backup
  ("server.js Mongo variant"), namespace `SrvMongo` below;
* `src/unnamed/part_000`, both parts — MongoDB storage with a CSV backup and
  an array-shaped `primary` payload (the two parts differ only in sync vs
  async file IO), namespace `P000` below.

Conventions of the embedding:

* JS strings are Lean `String`s; an absent/undefined payload field is
  `Option.none`; JS `x || d` on a string field is `jsOr` (the empty string is
  falsy in JS, so it also falls back to the default).
* The edit-count ledger (`edit_counts.json`, a JSON object) is an association
  list `List (String × Nat)`; `editCounts[k] || 0` is `lookupCount`,
  assignment is `setCount`, `delete editCounts[k]` is `removeKey`.
* The Mongo collection is a `List EventRecord` in insertion order;
  `insertMany` appends, `deleteMany {email: k}` filters by exact string
  equality of the stored `email` field with `k` (MongoDB equality on strings
  is case-sensitive, binary collation).
* The CSV mirror is modelled from the `csv-writer` npm library used by the
  code: a `CsvWriter` writes with file flag `w` together with the header on
  its first `writeRecords` call and sets its internal `append` flag, so every
  later `writeRecords` call on the same writer writes with flag `a`, i.e.
  appends, without a header.  The mirror state is therefore a row list plus
  that boolean flag.  The column projection performed before writing keeps
  every field value, so rows are kept as `EventRecord`s.
* `new Date(s).getMonth()/getDate()/getFullYear()` is modelled for the
  ISO `YYYY-MM-DD` strings the form submits, in a UTC runtime: `parseDate`
  returns `(year, month, day)` (month 1-based) exactly for valid calendar
  dates in that shape and `none` (JS `Invalid Date`) otherwise; `new Date(0)`
  is `(1970, 1, 1)`.
* Storage operations are assumed to succeed; IO failure paths (500 on store
  errors) are outside the model.
* The flat variant's in-memory `adminData` array is display-only (the spec
  calls it an ad hoc cache) and is not part of the modelled state; the flat
  variant's persistent store is its CSV file.
-/

namespace FamilyEvent

/-- JS `x || d` for an optional string field: `undefined` and `""` are falsy. -/
def jsOr : Option String → String → String
  | none, d => d
  | some s, d => if s = "" then d else s

/-- JS falsiness of an optional string: `undefined` or `""`. -/
def jsFalsy : Option String → Bool
  | none => true
  | some s => s == ""

/-- ASCII lowercasing of one character, as `String.prototype.toLowerCase`
acts on the ASCII range (emails in this app are ASCII). -/
def lowerChar (c : Char) : Char :=
  if 65 ≤ c.toNat ∧ c.toNat ≤ 90 then Char.ofNat (c.toNat + 32) else c

/-- `s.toLowerCase()`. -/
def lowerStr (s : String) : String := ⟨s.data.map lowerChar⟩

/-- Decimal digits of a natural number, fuel-indexed so that it is structural
and kernel-reducible.  `numStrAux (n+1) n` is the decimal representation. -/
def numStrAux : Nat → Nat → List Char
  | 0, _ => []
  | f + 1, n => if n < 10 then [Nat.digitChar n] else numStrAux f (n / 10) ++ [Nat.digitChar (n % 10)]

/-- JS number-to-string for a natural number (template-literal coercion). -/
def numStr (n : Nat) : String := ⟨numStrAux (n + 1) n⟩

/-- `String(n).padStart(2, "0")` for a natural number. -/
def pad2Str (n : Nat) : String := if n < 10 then "0" ++ numStr n else numStr n

/-- Does the second character list start with the first? -/
def listStarts : List Char → List Char → Bool
  | [], _ => true
  | _ :: _, [] => false
  | a :: as, b :: bs => a == b && listStarts as bs

/-- Does the second character list contain the first as a contiguous run? -/
def listHasSub (p : List Char) : List Char → Bool
  | [] => listStarts p []
  | b :: bs => listStarts p (b :: bs) || listHasSub p bs

/-- `^pat` regex anchor semantics: the string starts with the literal `pat`. -/
def strStarts (pat s : String) : Bool := listStarts pat.data s.data

/-- Unanchored literal regex semantics: the string contains `pat`. -/
def strHasSub (pat s : String) : Bool := listHasSub pat.data s.data

/-- Gregorian leap year, as implemented by the JS `Date` object. -/
def isLeap (y : Nat) : Bool := y % 4 == 0 && (y % 100 != 0 || y % 400 == 0)

/-- Number of days of a month, used by JS ISO date validation. -/
def daysInMonth (y m : Nat) : Nat :=
  if m = 2 then (if isLeap y then 29 else 28)
  else if m = 4 ∨ m = 6 ∨ m = 9 ∨ m = 11 then 30
  else 31

/-- `new Date(s)` for a date-only ISO string `YYYY-MM-DD` (the format the
form submits), in a UTC runtime, projected to
`(getFullYear(), getMonth()+1, getDate())`; `none` is JS `Invalid Date`.
Malformed or out-of-range strings yield `Invalid Date` per ES2020 ISO
parsing. -/
def parseDate (s : String) : Option (Nat × Nat × Nat) :=
  match s.data with
  | [y1, y2, y3, y4, h1, m1, m2, h2, d1, d2] =>
    if y1.isDigit && y2.isDigit && y3.isDigit && y4.isDigit &&
       h1 == '-' && m1.isDigit && m2.isDigit && h2 == '-' &&
       d1.isDigit && d2.isDigit then
      let y := (((y1.toNat - 48) * 10 + (y2.toNat - 48)) * 10 + (y3.toNat - 48)) * 10 + (y4.toNat - 48)
      let m := (m1.toNat - 48) * 10 + (m2.toNat - 48)
      let d := (d1.toNat - 48) * 10 + (d2.toNat - 48)
      if 1 ≤ m && m ≤ 12 && 1 ≤ d && d ≤ daysInMonth y m then some (y, m, d) else none
    else none
  | _ => none

/-- `editCounts[k] || 0` on the JSON ledger object. -/
def lookupCount : List (String × Nat) → String → Nat
  | [], _ => 0
  | p :: rest, k => if p.1 == k then p.2 else lookupCount rest k

/-- `editCounts[k] = v` on the JSON ledger object. -/
def setCount : List (String × Nat) → String → Nat → List (String × Nat)
  | [], k, v => [(k, v)]
  | p :: rest, k, v => if p.1 == k then (k, v) :: rest else p :: setCount rest k v

/-- `delete editCounts[k]` on the JSON ledger object. -/
def removeKey (l : List (String × Nat)) (k : String) : List (String × Nat) :=
  l.filter (fun p => !(p.1 == k))

/-- `ADMIN_PASSWORD` fallback value (`process.env.ADMIN_PASSWORD` unset). -/
def ADMIN_PASSWORD : String := "adminpswd6885"

/-- One stored entry of the Mongo `entries` collection (and one CSV row) in
the `part_000` revisions. -/
structure EventRecord where
  name : String
  email : String
  phone : String
  occasion : String
  dateOfOccasion : String
  gotra : String
  nakshatra : String
  tamilMonth : String
  rashi : String
  address : String
  relation : String
  submittedAt : String
deriving DecidableEq, Repr

/-- One incoming person payload (primary entry or family member) of the
`part_000` revisions; every field is optional in the JSON body. -/
structure Person where
  name : Option String := none
  occasion : Option String := none
  dateOfOccasion : Option String := none
  gotra : Option String := none
  nakshatra : Option String := none
  tamilMonth : Option String := none
  rashi : Option String := none
  address : Option String := none
  phone : Option String := none
  relation : Option String := none
  email : Option String := none
deriving DecidableEq, Repr

namespace P000

/-- `POST /save` body `{primary, family}` of `part_000` (both are arrays). -/
structure SaveReq where
  primary : List Person
  family : List Person
deriving DecidableEq, Repr

/-- Whole persistent state of a `part_000` revision: ledger file, Mongo
collection, mirror CSV rows, and the csv-writer append flag. -/
structure ServerState where
  ledger : List (String × Nat)
  store : List EventRecord
  mirrorRows : List EventRecord
  mirrorAppend : Bool
deriving DecidableEq, Repr

/-- `part_000` `/save`: one element of `primaryRecords` (`primary.map`). -/
def primaryRecord (r : Person) (sa : String) : EventRecord :=
  { name := jsOr r.name "N/A", email := jsOr r.email "N/A", phone := jsOr r.phone "N/A",
    occasion := jsOr r.occasion "", dateOfOccasion := jsOr r.dateOfOccasion "",
    gotra := jsOr r.gotra "", nakshatra := jsOr r.nakshatra "", tamilMonth := jsOr r.tamilMonth "",
    rashi := jsOr r.rashi "", address := jsOr r.address "N/A",
    relation := jsOr r.relation "Self (Primary)", submittedAt := sa }

/-- `part_000` `/save`: one element of `familyRecords` (`family.map` with
0-based `index`); `email` comes from `primary[0]`, `address` falls back to
`primary[0].address`. -/
def familyRecord (p0 : Person) (i : Nat) (m : Person) (sa : String) : EventRecord :=
  { name := jsOr m.name "N/A", email := jsOr p0.email "N/A", phone := jsOr m.phone "N/A",
    occasion := jsOr m.occasion "", dateOfOccasion := jsOr m.dateOfOccasion "",
    gotra := jsOr m.gotra "", nakshatra := jsOr m.nakshatra "", tamilMonth := jsOr m.tamilMonth "",
    rashi := jsOr m.rashi "", address := jsOr m.address (jsOr p0.address "N/A"),
    relation := jsOr m.relation ("Family Member " ++ numStr (i + 1)), submittedAt := sa }

/-- `part_000` `/save`: `newRecords = [...primaryRecords, ...familyRecords]`,
with `p0 :: rest` the primary array. -/
def materialize (p0 : Person) (rest fam : List Person) (sa : String) : List EventRecord :=
  (p0 :: rest).map (fun r => primaryRecord r sa) ++ fam.enum.map (fun im => familyRecord p0 im.1 im.2 sa)

/-- `part_000` `POST /save`.  Returns `(status, message)` and the new state.
Validation and the quota gate precede every write; on resubmission
(`editCount > 0`) the code runs `deleteMany {email: emailKey}` (exact,
case-sensitive match on the stored `email`) before `insertMany`; the ledger
entry becomes `editCount + 1` in both branches; finally the full collection
is passed to `csvWriter.writeRecords` (append after the writer's first
write). -/
def save (st : ServerState) (sa : String) (req : SaveReq) : (Nat × String) × ServerState :=
  match req.primary with
  | [] => ((400, "Missing required primary data (name, email, phone, or address)"), st)
  | p0 :: rest =>
    if jsFalsy p0.email || jsFalsy p0.name || jsFalsy p0.phone || jsFalsy p0.address then
      ((400, "Missing required primary data (name, email, phone, or address)"), st)
    else
      let emailKey := lowerStr (p0.email.getD "")
      let editCount := lookupCount st.ledger emailKey
      if 3 ≤ editCount then
        ((400, "Edit limit of 3 reached"), st)
      else
        let newRecords := materialize p0 rest req.family sa
        let store2 :=
          (if 0 < editCount then st.store.filter (fun r => !(r.email == emailKey)) else st.store)
            ++ newRecords
        ((200, "Data saved to database and CSV successfully!"),
         { ledger := setCount st.ledger emailKey (editCount + 1),
           store := store2,
           mirrorRows := if st.mirrorAppend then st.mirrorRows ++ store2 else store2,
           mirrorAppend := true })

/-- `part_000` `POST /delete`: password gate, `deleteMany {email:
email.toLowerCase()}` (exact match on the stored `email`), mirror rewrite
via the shared csv-writer, ledger entry removal. -/
def deleteOp (st : ServerState) (password email : String) : (Nat × String) × ServerState :=
  if password == "" || !(password == ADMIN_PASSWORD) then
    ((401, "Unauthorized"), st)
  else
    let key := lowerStr email
    let store2 := st.store.filter (fun r => !(r.email == key))
    ((200, "Data deleted successfully!"),
     { ledger := removeKey st.ledger key,
       store := store2,
       mirrorRows := if st.mirrorAppend then st.mirrorRows ++ store2 else store2,
       mirrorAppend := true })

/-- `GET /edit-count/:email`. -/
def editCountOf (st : ServerState) (email : String) : Nat :=
  lookupCount st.ledger (lowerStr email)

/-- The identity key a `/save` request would use, when its primary array is
nonempty: `primary[0].email.toLowerCase()` (absent email keyed as `""`;
such a request never passes validation). -/
def saveKey (req : SaveReq) : Option String :=
  match req.primary with
  | [] => none
  | p0 :: _ => some (lowerStr (p0.email.getD ""))

/-- Run a list of `/save` requests (each with its `submittedAt` stamp). -/
def runSaves : ServerState → List (String × SaveReq) → ServerState
  | st, [] => st
  | st, (sa, r) :: rest => runSaves (save st sa r).2 rest

/-- Number of requests of the list that succeed (status 200) for identity
key `k`, along the actual run. -/
def succCount (k : String) : ServerState → List (String × SaveReq) → Nat
  | _, [] => 0
  | st, (sa, r) :: rest =>
    (if (save st sa r).1.1 = 200 ∧ saveKey r = some k then 1 else 0)
      + succCount k (save st sa r).2 rest

/-- `part_000` `GET /admin` date filter (`$regex` on `dateOfOccasion`),
with the query parameters as parsed numbers (`none` = absent).  A supplied
month outside 1–12 fails the `month >= 1 && month <= 12` guard and falls
through to the year-only branch, exactly as in the source. -/
def adminMatch (mo yr : Option Nat) (date : String) : Bool :=
  match mo with
  | some m =>
    if 1 ≤ m ∧ m ≤ 12 then
      match yr with
      | some y => strStarts (numStr y ++ "-" ++ pad2Str m ++ "-") date
      | none => strHasSub ("-" ++ pad2Str m ++ "-") date
    else
      match yr with
      | some y => strStarts (numStr y ++ "-") date
      | none => true
  | none =>
    match yr with
    | some y => strStarts (numStr y ++ "-") date
    | none => true

end P000

/-- `a.dateOfOccasion ? new Date(a.dateOfOccasion) : new Date(0)` projected
to calendar fields: the empty string is falsy, so an absent date becomes the
epoch `1970-01-01`; any other string goes through `Date` parsing. -/
def effDate (s : String) : Option (Nat × Nat × Nat) :=
  if s = "" then some (1970, 1, 1) else parseDate s

/-- Sign of `(a.name || "").localeCompare(b.name || "")`, modelled as
codepoint-lexicographic comparison (default C locale). -/
def strCmpInt (a b : String) : Int :=
  match compare a b with
  | Ordering.lt => -1
  | Ordering.eq => 0
  | Ordering.gt => 1

/-- The `records.sort` comparator of `GET /admin` in the Mongo variants
(`part_000` and the server.js Mongo variant have identical comparators), on
the effective dates: `Invalid Date` on either side returns -1/1 putting the
unparseable side first; otherwise month difference, then day, then year,
then name. -/
def cmpDates : Option (Nat × Nat × Nat) → Option (Nat × Nat × Nat) → String → String → Int
  | none, _, _, _ => -1
  | some _, none, _, _ => 1
  | some a, some b, na, nb =>
    if a.2.1 ≠ b.2.1 then (a.2.1 : Int) - (b.2.1 : Int)
    else if a.2.2 ≠ b.2.2 then (a.2.2 : Int) - (b.2.2 : Int)
    else if a.1 ≠ b.1 then (a.1 : Int) - (b.1 : Int)
    else strCmpInt na nb

/-- The full admin display comparator applied to two stored records. -/
def cmpAdmin (a b : EventRecord) : Int :=
  cmpDates (effDate a.dateOfOccasion) (effDate b.dateOfOccasion) a.name b.name

namespace SrvMongo

/-- Incoming person payload of the server.js Mongo variant (object-shaped
`primary`). -/
structure SrvPerson where
  name : Option String := none
  email : Option String := none
  dateOfEvent : Option String := none
  eventDescription : Option String := none
  gotra : Option String := none
  nakshatra : Option String := none
  rashi : Option String := none
  phone : Option String := none
  address : Option String := none
  relation : Option String := none
deriving DecidableEq, Repr

/-- Stored record of the server.js Mongo variant. -/
structure SrvRecord where
  name : String
  email : String
  dateOfEvent : String
  eventDescription : String
  gotra : String
  nakshatra : String
  rashi : String
  phone : String
  address : String
  relation : String
  submittedAt : String
deriving DecidableEq, Repr

/-- server.js Mongo variant `/save` record preparation: primary record plus
`family.map((member, index) => ...)`; a family member with no `relation`
gets `"Spouse"` at index 0 and `"Family Member {index+1}"` afterwards, and
every family record carries `primary.email`. -/
def materialize (p : SrvPerson) (fam : List SrvPerson) (sa : String) : List SrvRecord :=
  { name := jsOr p.name "N/A", email := jsOr p.email "N/A",
    dateOfEvent := jsOr p.dateOfEvent "", eventDescription := jsOr p.eventDescription "",
    gotra := jsOr p.gotra "N/A", nakshatra := jsOr p.nakshatra "N/A", rashi := jsOr p.rashi "N/A",
    phone := jsOr p.phone "N/A", address := jsOr p.address "",
    relation := "Self (Primary)", submittedAt := sa }
  :: fam.enum.map (fun im =>
    { name := jsOr im.2.name "N/A", email := jsOr p.email "N/A",
      dateOfEvent := jsOr im.2.dateOfEvent "", eventDescription := jsOr im.2.eventDescription "",
      gotra := jsOr im.2.gotra "N/A", nakshatra := jsOr im.2.nakshatra "N/A",
      rashi := jsOr im.2.rashi "N/A", phone := jsOr im.2.phone "N/A",
      address := jsOr im.2.address "",
      relation := jsOr im.2.relation (if im.1 = 0 then "Spouse" else "Family Member " ++ numStr (im.1 + 1)),
      submittedAt := sa })

/-- server.js Mongo variant `GET /admin` date filter: the month and year
constraints are pushed into a `conditions` array and combined with
`query.$or`, so a record matches if ANY condition holds; an empty
`conditions` array leaves `query = {}` (match all). -/
def adminMatch (mo yr : Option Nat) (date : String) : Bool :=
  let conds : List Bool :=
    (match mo with
     | some m => if 1 ≤ m ∧ m ≤ 12 then [strHasSub ("-" ++ pad2Str m ++ "-") date] else []
     | none => [])
    ++ (match yr with
        | some y => [strStarts (numStr y ++ "-") date]
        | none => [])
  if conds.isEmpty then true else conds.any id

end SrvMongo

namespace FlatCsv

/-- Incoming person payload of the flat-CSV variant. -/
structure FlatPerson where
  name : Option String := none
  email : Option String := none
  dateOfEvent : Option String := none
  eventDescription : Option String := none
  gotra : Option String := none
  nakshatra : Option String := none
  rashi : Option String := none
  phone : Option String := none
  address : Option String := none
  relation : Option String := none
deriving DecidableEq, Repr

/-- One CSV row of the flat-CSV variant (keys are the csvHeaders titles;
field names here follow the header ids). -/
structure FlatRecord where
  name : String
  email : String
  dateOfEvent : String
  eventDescription : String
  gotra : String
  nakshatra : String
  rashi : String
  phone : String
  address : String
  relation : String
  submittedAt : String
deriving DecidableEq, Repr

/-- Flat-CSV variant `newRecords`: the primary row takes every
`csvHeaders` field with default `"N/A"` and then overrides
`Relation to Primary` with `"Self (Primary)"`; family rows are built from
`family.slice(0, 10)` with each member's OWN field values (including
`email`) defaulted to `"N/A"`, and `relation` defaulted to `"N/A"`. -/
def materialize (p : FlatPerson) (fam : List FlatPerson) (sa : String) : List FlatRecord :=
  { name := jsOr p.name "N/A", email := jsOr p.email "N/A",
    dateOfEvent := jsOr p.dateOfEvent "N/A", eventDescription := jsOr p.eventDescription "N/A",
    gotra := jsOr p.gotra "N/A", nakshatra := jsOr p.nakshatra "N/A", rashi := jsOr p.rashi "N/A",
    phone := jsOr p.phone "N/A", address := jsOr p.address "N/A",
    relation := "Self (Primary)", submittedAt := sa }
  :: (fam.take 10).map (fun m =>
    { name := jsOr m.name "N/A", email := jsOr m.email "N/A",
      dateOfEvent := jsOr m.dateOfEvent "N/A", eventDescription := jsOr m.eventDescription "N/A",
      gotra := jsOr m.gotra "N/A", nakshatra := jsOr m.nakshatra "N/A", rashi := jsOr m.rashi "N/A",
      phone := jsOr m.phone "N/A", address := jsOr m.address "N/A",
      relation := jsOr m.relation "N/A", submittedAt := sa })

/-- Persistent state of the flat-CSV variant: ledger file plus the CSV file
(rows and the csv-writer append flag).  The in-memory `adminData` array is
display-only and rebuilt from the CSV at startup; it is not modelled. -/
structure FlatState where
  ledger : List (String × Nat)
  csvRows : List FlatRecord
  csvAppend : Bool
deriving DecidableEq, Repr

/-- Flat-CSV variant `POST /save`.  A missing primary, email or name THROWS
inside the try block, and the catch handler answers with status 500
(`"Error saving data: " + message`) — not 400.  The quota gate answers 400
before any write.  On success the ledger is incremented and written, and
`csvWriter.writeRecords(newRecords)` appends the new batch to the CSV
(flag `a` after the writer's first write). -/
def save (st : FlatState) (sa : String) (primary : Option FlatPerson) (fam : List FlatPerson) :
    (Nat × String) × FlatState :=
  match primary with
  | none => ((500, "Error saving data: Missing required primary data (email or name)"), st)
  | some p =>
    if jsFalsy p.email || jsFalsy p.name then
      ((500, "Error saving data: Missing required primary data (email or name)"), st)
    else
      let emailKey := lowerStr (p.email.getD "")
      let editCount := lookupCount st.ledger emailKey
      if 3 ≤ editCount then
        ((400, "Edit limit of 3 reached"), st)
      else
        let newRecords := materialize p fam sa
        ((200, "Data saved to CSV and admin successfully!"),
         { ledger := setCount st.ledger emailKey (editCount + 1),
           csvRows := if st.csvAppend then st.csvRows ++ newRecords else newRecords,
           csvAppend := true })

end FlatCsv

/-! ## Derived definitions and concrete inputs used by the theorems -/

/-- A primary payload whose email has mixed case, as a user may type it. -/
def alicePrimary (occ : String) : Person :=
  { name := some "Anu", email := some "Alice@X.com", phone := some "1",
    address := some "H", occasion := some occ }

/-- Empty `part_000` state; the csv-writer has already done its
initialization write (`initializeFiles` writes `[]` when the CSV file is
absent), so its append flag is set. -/
def p000Init : P000.ServerState := ⟨[], [], [], true⟩

/-- State after a first successful submission by `Alice@X.com`. -/
def c2state1 : P000.ServerState :=
  (P000.save p000Init "T1" ⟨[alicePrimary "Birthday"], []⟩).2

/-- The resubmission (`editCount = 1 > 0`, the "true edit" path). -/
def c2result : (Nat × String) × P000.ServerState :=
  P000.save c2state1 "T2" ⟨[alicePrimary "Anniversary"], []⟩

/-- State after one successful submission by `Alice@X.com` (for C3). -/
def c3state1 : P000.ServerState :=
  (P000.save p000Init "T1" ⟨[alicePrimary "Birthday"], []⟩).2

/-- `POST /delete` with the correct password for that same email. -/
def c3result : (Nat × String) × P000.ServerState :=
  P000.deleteOp c3state1 ADMIN_PASSWORD "Alice@X.com"

/-- First submitter of the C5 demonstration. -/
def c5pA : Person :=
  { name := some "Anu", email := some "a@x.com", phone := some "1", address := some "H" }

/-- Second submitter of the C5 demonstration. -/
def c5pB : Person :=
  { name := some "Bee", email := some "b@y.com", phone := some "2", address := some "K" }

/-- Two successive successful saves, starting with the given csv-writer
append flag (true if the startup initialization wrote the empty CSV, false
if the file already existed). -/
def c5run (initialAppend : Bool) : P000.ServerState :=
  (P000.save (P000.save ⟨[], [], [], initialAppend⟩ "T1" ⟨[c5pA], []⟩).2 "T2" ⟨[c5pB], []⟩).2

/-- Empty flat-CSV state (CSV initialized at startup). -/
def flatInit : FlatCsv.FlatState := ⟨[], [], true⟩

/-- A stored record with the given event date and name, other fields fixed. -/
def recDN (date nm : String) : EventRecord :=
  { name := nm, email := "e", phone := "p", occasion := "o", dateOfOccasion := date,
    gotra := "", nakshatra := "", tamilMonth := "", rashi := "", address := "a",
    relation := "Self (Primary)", submittedAt := "T" }

/-- The two decimal digit characters of a 2-digit field. -/
def pad2chars (n : Nat) : List Char := [Nat.digitChar (n / 10), Nat.digitChar (n % 10)]

/-- The four decimal digit characters of a 4-digit year. -/
def pad4chars (n : Nat) : List Char :=
  [Nat.digitChar (n / 1000), Nat.digitChar (n / 100 % 10), Nat.digitChar (n / 10 % 10),
   Nat.digitChar (n % 10)]

/-- The canonical `YYYY-MM-DD` string with the given calendar fields (what a
well-formed `dateOfOccasion` value looks like). -/
def renderDate (y m d : Nat) : String :=
  ⟨pad4chars y ++ '-' :: pad2chars m ++ '-' :: pad2chars d⟩

/-- Three-way natural comparison used to phrase the spec's sort chain. -/
def cmp3 (a b : Nat) : Ordering :=
  if a < b then Ordering.lt else if b < a then Ordering.gt else Ordering.eq

/-- The claimed tie-break chain among records with (effective) valid dates:
calendar month ignoring year, then day-of-month, then year ascending, then
name lexicographically ascending. -/
def specChainCmp (x y : Nat × Nat × Nat) (na nb : String) : Ordering :=
  match cmp3 x.2.1 y.2.1 with
  | Ordering.eq =>
    match cmp3 x.2.2 y.2.2 with
    | Ordering.eq =>
      match cmp3 x.1 y.1 with
      | Ordering.eq => compare na nb
      | o => o
    | o => o
  | o => o


/-! ## Ledger lemmas -/

theorem lookup_setCount_self (l : List (String × Nat)) (k : String) (v : Nat) :
    lookupCount (setCount l k v) k = v := by
  induction l with
  | nil => simp [setCount, lookupCount]
  | cons p rest ih =>
    by_cases h : p.1 == k
    · simp [setCount, h, lookupCount]
    · simp [setCount, h, lookupCount, ih]

theorem lookup_setCount_other (l : List (String × Nat)) (k k2 : String) (v : Nat)
    (h : k2 ≠ k) : lookupCount (setCount l k v) k2 = lookupCount l k2 := by
  induction l with
  | nil =>
    have : (k == k2) = false := by simpa using fun e => h e.symm
    simp [setCount, lookupCount, this]
  | cons p rest ih =>
    by_cases h2 : p.1 == k
    · have hp : p.1 = k := by simpa using h2
      have : (k == k2) = false := by simpa using fun e => h e.symm
      simp [setCount, h2, lookupCount, this, hp]
    · simp [setCount, h2, lookupCount, ih]

/-! ## Quota behaviour of `part_000` `/save` -/

theorem save_count (st : P000.ServerState) (sa : String) (req : P000.SaveReq) (k : String) :
    lookupCount (P000.save st sa req).2.ledger k =
      lookupCount st.ledger k +
        (if (P000.save st sa req).1.1 = 200 ∧ P000.saveKey req = some k then 1 else 0) := by
  rcases req with ⟨prim, fam⟩
  cases prim with
  | nil => simp [P000.save, P000.saveKey]
  | cons p0 rest =>
    simp only [P000.save, P000.saveKey]
    split
    · simp
    · split
      · simp
      · by_cases hk : lowerStr (p0.email.getD "") = k
        · subst hk
          simp [lookup_setCount_self]
        · have hne : k ≠ lowerStr (p0.email.getD "") := fun e => hk e.symm
          simp [lookup_setCount_other _ _ _ _ hne, hk]

theorem save_success_lt (st : P000.ServerState) (sa : String) (req : P000.SaveReq) (k : String)
    (h200 : (P000.save st sa req).1.1 = 200) (hk : P000.saveKey req = some k) :
    lookupCount st.ledger k < 3 := by
  rcases req with ⟨prim, fam⟩
  cases prim with
  | nil => simp [P000.save] at h200
  | cons p0 rest =>
    simp only [P000.saveKey, Option.some.injEq] at hk
    subst hk
    simp only [P000.save] at h200
    split at h200
    · simp at h200
    · split at h200
      · simp at h200
      · omega

theorem save_count_le3 (st : P000.ServerState) (sa : String) (req : P000.SaveReq) (k : String)
    (h : lookupCount st.ledger k ≤ 3) :
    lookupCount (P000.save st sa req).2.ledger k ≤ 3 := by
  rw [save_count]
  split
  · rename_i hc
    have := save_success_lt st sa req k hc.1 hc.2
    omega
  · omega

theorem runSaves_count (reqs : List (String × P000.SaveReq)) (st : P000.ServerState) (k : String) :
    lookupCount (P000.runSaves st reqs).ledger k =
      lookupCount st.ledger k + P000.succCount k st reqs := by
  induction reqs generalizing st with
  | nil => simp [P000.runSaves, P000.succCount]
  | cons r rest ih =>
    rcases r with ⟨sa, req⟩
    simp only [P000.runSaves, P000.succCount]
    rw [ih, save_count]
    omega

theorem runSaves_le3 (reqs : List (String × P000.SaveReq)) (st : P000.ServerState) (k : String)
    (h : lookupCount st.ledger k ≤ 3) :
    lookupCount (P000.runSaves st reqs).ledger k ≤ 3 := by
  induction reqs generalizing st with
  | nil => simpa [P000.runSaves]
  | cons r rest ih =>
    rcases r with ⟨sa, req⟩
    exact ih _ (save_count_le3 st sa req k h)

/-! ## Concrete inputs used by the demonstrations -/

/-- C2 (code_bug demonstration): a resubmitting identity whose stored email
is `"Alice@X.com"` takes the `editCount > 0` path, but
`deleteMany {email: "alice@x.com"}` matches the stored email only
case-sensitively, so the prior batch survives: after the second save the
store holds BOTH batches for the identity key `"alice@x.com"` instead of
exactly the new one. -/
theorem c2_resubmit_keeps_stale_batch :
    c2result.1.1 = 200
    ∧ c2result.2.store.map (fun r => (lowerStr r.email, r.submittedAt)) =
        [("alice@x.com", "T1"), ("alice@x.com", "T2")]
    ∧ c2result.2.store ≠ P000.materialize (alicePrimary "Anniversary") [] [] "T2" := by
  decide

/-- C3 (code_bug demonstration): the delete answers 200 and the ledger entry
is reset (a later `GET /edit-count` returns 0), but the stored record whose
email matches the given email case-insensitively is NOT removed, because
`deleteMany {email: email.toLowerCase()}` compares the stored mixed-case
email with the lowercased key by exact equality. -/
theorem c3_delete_misses_mixed_case :
    c3result.1.1 = 200
    ∧ c3result.2.store.map (fun r => lowerStr r.email) = [lowerStr "Alice@X.com"]
    ∧ c3result.2.store.length = 1
    ∧ P000.editCountOf c3result.2 "Alice@X.com" = 0 := by
  decide

/-- C5 (code_bug demonstration): after the second successful save the mirror
CSV does not equal the store's current contents — whichever state the
csv-writer append flag started in, the writer appends the full store
snapshot on every `writeRecords` call after its first, so the mirror holds
three rows (the first batch twice) while the store holds two. -/
theorem c5_mirror_accumulates :
    (c5run true).mirrorRows ≠ (c5run true).store
    ∧ (c5run false).mirrorRows ≠ (c5run false).store
    ∧ (c5run true).store.length = 2
    ∧ (c5run true).mirrorRows.length = 3
    ∧ (c5run false).mirrorRows.length = 3 := by
  decide

/-- C4 counterexample: in the flat-CSV variant a `/save` whose primary has a
name but no email is rejected with status 500, not 400 — the validation
failure is thrown and handled by the generic catch — though indeed with no
persistence side effect. -/
theorem c4_flat_missing_email_500 :
    FlatCsv.save flatInit "T1" (some { name := some "Anu" }) [] =
      ((500, "Error saving data: Missing required primary data (email or name)"), flatInit)
    ∧ (500 : Nat) ≠ 400 := by
  decide

/-- C6 counterexample: a record with an ABSENT event date is treated as
`new Date(0)` = 1970-01-01 (a valid date) by the admin comparator, so it
sorts AFTER a record validly dated 1950-01-01 (same month and day, smaller
year), refuting "records whose event date is absent or unparseable come
before all records with valid dates". -/
theorem c6_absent_date_not_first :
    (recDN "" "Y").dateOfOccasion = ""
    ∧ parseDate (recDN "1950-01-01" "X").dateOfOccasion = some (1950, 1, 1)
    ∧ 0 < cmpAdmin (recDN "" "Y") (recDN "1950-01-01" "X") := by
  decide

/-- C7 counterexample: the server.js Mongo variant's admin filter with
month=3 AND year=2025 matches a record dated March 2024 — the two
constraints are `$or`-combined, not AND-combined, so "matches only if its
event date is in that exact year-month" fails. -/
theorem c7_srv_or_combination :
    SrvMongo.adminMatch (some 3) (some 2025) "2024-03-15" = true
    ∧ parseDate "2024-03-15" = some (2024, 3, 15)
    ∧ (2024 : Nat) ≠ 2025 := by
  decide

/-- C8 counterexample: in the server.js Mongo variant the FIRST family
member with no explicit relation is materialized with relation `"Spouse"`,
not `"Family Member 1"`. -/
theorem c8_first_member_spouse :
    (SrvMongo.materialize { email := some "p@x.com", name := some "P" }
        [{ name := some "Kid" }] "T").map (fun r => r.relation) =
      ["Self (Primary)", "Spouse"]
    ∧ "Spouse" ≠ "Family Member 1" := by
  decide

/-- C9 counterexample: in the flat-CSV variant a family row's Email column
is the member's OWN payload email defaulted to `"N/A"`, not the primary
submitter's email, so the records of one batch need not share one email
value. -/
theorem c9_flat_member_own_email :
    (FlatCsv.materialize { email := some "P@x.com", name := some "P" }
        [{ name := some "Kid" }] "T").map (fun r => r.email) =
      ["P@x.com", "N/A"]
    ∧ "N/A" ≠ "P@x.com" := by
  decide

/-! ## Claim theorems -/

/-- C1: for every identity key, starting from a ledger with no entry for it,
after a run of `/save` requests of which exactly `n` succeeded for that key,
the ledger count equals `n` and `n ≤ 3`; and a request arriving when the
key's count is already ≥ 3 (with a payload that passes validation) is
answered `400 "Edit limit of 3 reached"` with the whole state unchanged —
no store write, no ledger write, no mirror write. -/
theorem c1_edit_quota :
    (∀ (st : P000.ServerState) (reqs : List (String × P000.SaveReq)) (k : String),
      lookupCount st.ledger k = 0 →
      lookupCount (P000.runSaves st reqs).ledger k = P000.succCount k st reqs
      ∧ P000.succCount k st reqs ≤ 3)
    ∧ (∀ (st : P000.ServerState) (sa : String) (req : P000.SaveReq) (p0 : Person)
        (rest : List Person), req.primary = p0 :: rest →
      (jsFalsy p0.email || jsFalsy p0.name || jsFalsy p0.phone || jsFalsy p0.address) = false →
      3 ≤ lookupCount st.ledger (lowerStr (p0.email.getD "")) →
      P000.save st sa req = ((400, "Edit limit of 3 reached"), st)) := by
  constructor
  · intro st reqs k h0
    have hc := runSaves_count reqs st k
    have hb := runSaves_le3 reqs st k (by omega)
    omega
  · intro st sa req p0 rest hp hval hq
    rcases req with ⟨prim, fam⟩
    simp only at hp
    subst hp
    simp [P000.save, hval, hq]

/-- Closed instance of C1: two submissions by `a@x.com` and a third request
against a full quota entry. -/
theorem c1_edit_quota_witness :
    (lookupCount (P000.runSaves p000Init [("T1", ⟨[c5pA], []⟩), ("T2", ⟨[c5pA], []⟩)]).ledger
        "a@x.com" =
      P000.succCount "a@x.com" p000Init [("T1", ⟨[c5pA], []⟩), ("T2", ⟨[c5pA], []⟩)]
    ∧ P000.succCount "a@x.com" p000Init [("T1", ⟨[c5pA], []⟩), ("T2", ⟨[c5pA], []⟩)] ≤ 3)
    ∧ P000.save ⟨[("a@x.com", 3)], [], [], true⟩ "T9" ⟨[c5pA], []⟩ =
        ((400, "Edit limit of 3 reached"), ⟨[("a@x.com", 3)], [], [], true⟩) :=
  ⟨c1_edit_quota.1 p000Init [("T1", ⟨[c5pA], []⟩), ("T2", ⟨[c5pA], []⟩)] "a@x.com" rfl,
   c1_edit_quota.2 ⟨[("a@x.com", 3)], [], [], true⟩ "T9" ⟨[c5pA], []⟩ c5pA [] rfl (by decide)
     (by decide)⟩

/-- C4 (amended): a `/save` whose primary payload lacks an email (absent or
empty) or lacks a name is rejected before any persistence side effect — the
returned state is exactly the prior state, so no ledger, store, or mirror
write happens; the `part_000` (Mongo) revisions answer status 400, but the
flat-CSV variant throws and its catch handler answers status 500, not 400. -/
theorem c4_missing_required_rejected :
    (∀ (st : P000.ServerState) (sa : String) (fam : List Person),
      P000.save st sa ⟨[], fam⟩ =
        ((400, "Missing required primary data (name, email, phone, or address)"), st))
    ∧ (∀ (st : P000.ServerState) (sa : String) (req : P000.SaveReq) (p0 : Person)
        (rest : List Person), req.primary = p0 :: rest →
      (jsFalsy p0.email = true ∨ jsFalsy p0.name = true) →
      P000.save st sa req =
        ((400, "Missing required primary data (name, email, phone, or address)"), st))
    ∧ (∀ (st : FlatCsv.FlatState) (sa : String) (fam : List FlatCsv.FlatPerson),
      FlatCsv.save st sa none fam =
        ((500, "Error saving data: Missing required primary data (email or name)"), st))
    ∧ (∀ (st : FlatCsv.FlatState) (sa : String) (p : FlatCsv.FlatPerson)
        (fam : List FlatCsv.FlatPerson),
      (jsFalsy p.email = true ∨ jsFalsy p.name = true) →
      FlatCsv.save st sa (some p) fam =
        ((500, "Error saving data: Missing required primary data (email or name)"), st)) := by
  refine ⟨?_, ?_, ?_, ?_⟩
  · intro st sa fam
    simp [P000.save]
  · intro st sa req p0 rest hp hmiss
    rcases req with ⟨prim, fam⟩
    simp only at hp
    subst hp
    rcases hmiss with h | h <;> simp [P000.save, h]
  · intro st sa fam
    simp [FlatCsv.save]
  · intro st sa p fam hmiss
    rcases hmiss with h | h <;> simp [FlatCsv.save, h]

/-- Closed instance of C4 (amended): a primary with a name but no email is
rejected by `part_000` with 400 and by the flat variant with 500, both
leaving the state untouched. -/
theorem c4_missing_required_witness :
    P000.save p000Init "T1" ⟨[{ name := some "Anu" }], []⟩ =
      ((400, "Missing required primary data (name, email, phone, or address)"), p000Init)
    ∧ FlatCsv.save flatInit "T1" (some { name := some "Anu" }) [] =
        ((500, "Error saving data: Missing required primary data (email or name)"), flatInit) :=
  ⟨c4_missing_required_rejected.2.1 p000Init "T1" ⟨[{ name := some "Anu" }], []⟩
      { name := some "Anu" } [] rfl (Or.inl rfl),
   c4_missing_required_rejected.2.2.2 flatInit "T1" { name := some "Anu" } [] (Or.inl rfl)⟩

/-- C8 (amended): relation defaults per variant.  In the flat-CSV variant
the primary row is always `"Self (Primary)"` and a family member with no
explicit relation gets `"N/A"`.  In the server.js Mongo variant the primary
is always `"Self (Primary)"` and a family member with no explicit relation
gets `"Spouse"` at index 0 and `"Family Member {index+1}"` afterwards.  In
`part_000` every primary-array entry defaults to `"Self (Primary)"` but a
caller-supplied relation wins, and a family member with no explicit
relation gets `"Family Member {index+1}"` (0-based index over the family
list). -/
theorem c8_relation_defaults :
    (∀ (p : FlatCsv.FlatPerson) (fam : List FlatCsv.FlatPerson) (sa : String),
      (FlatCsv.materialize p fam sa).map (fun r => r.relation) =
        "Self (Primary)" :: (fam.take 10).map (fun m => jsOr m.relation "N/A"))
    ∧ (∀ (p : SrvMongo.SrvPerson) (fam : List SrvMongo.SrvPerson) (sa : String),
      (SrvMongo.materialize p fam sa).map (fun r => r.relation) =
        "Self (Primary)" :: fam.enum.map (fun im =>
          jsOr im.2.relation
            (if im.1 = 0 then "Spouse" else "Family Member " ++ numStr (im.1 + 1))))
    ∧ (∀ (p0 : Person) (rest fam : List Person) (sa : String),
      (P000.materialize p0 rest fam sa).map (fun r => r.relation) =
        (p0 :: rest).map (fun r => jsOr r.relation "Self (Primary)")
          ++ fam.enum.map (fun im =>
              jsOr im.2.relation ("Family Member " ++ numStr (im.1 + 1)))) := by
  refine ⟨?_, ?_, ?_⟩
  · intro p fam sa
    simp only [FlatCsv.materialize, List.map_cons, List.map_map]
    rfl
  · intro p fam sa
    simp only [SrvMongo.materialize, List.map_cons, List.map_map]
    rfl
  · intro p0 rest fam sa
    simp only [P000.materialize, P000.primaryRecord, P000.familyRecord, List.map_append,
      List.map_cons, List.map_map]
    rfl

/-- C9 (amended): in the Mongo variants every record of a single-primary
batch carries the primary submitter's email as submitted (defaulted to
`"N/A"` when falsy); in the flat-CSV variant each row's Email column is
that row's OWN payload email defaulted to `"N/A"`, so family rows need not
share the primary's email. -/
theorem c9_batch_email :
    (∀ (p0 : Person) (fam : List Person) (sa : String) (r : EventRecord),
      r ∈ P000.materialize p0 [] fam sa → r.email = jsOr p0.email "N/A")
    ∧ (∀ (p : SrvMongo.SrvPerson) (fam : List SrvMongo.SrvPerson) (sa : String)
        (r : SrvMongo.SrvRecord),
      r ∈ SrvMongo.materialize p fam sa → r.email = jsOr p.email "N/A")
    ∧ (∀ (p : FlatCsv.FlatPerson) (fam : List FlatCsv.FlatPerson) (sa : String),
      (FlatCsv.materialize p fam sa).map (fun r => r.email) =
        jsOr p.email "N/A" :: (fam.take 10).map (fun m => jsOr m.email "N/A")) := by
  refine ⟨?_, ?_, ?_⟩
  · intro p0 fam sa r hr
    simp [P000.materialize, P000.primaryRecord, P000.familyRecord] at hr
    rcases hr with rfl | ⟨i, m, _, rfl⟩ <;> rfl
  · intro p fam sa r hr
    simp [SrvMongo.materialize] at hr
    rcases hr with rfl | ⟨i, m, _, rfl⟩ <;> rfl
  · intro p fam sa
    simp only [FlatCsv.materialize, List.map_cons, List.map_map]
    rfl

/-- Closed instance of C9 (amended): a family record of a `part_000` batch
carries the primary's submitted email. -/
theorem c9_batch_email_witness :
    (P000.familyRecord (alicePrimary "Birthday") 0 { name := some "Kid" } "T1").email =
      jsOr (alicePrimary "Birthday").email "N/A" :=
  c9_batch_email.1 (alicePrimary "Birthday") [{ name := some "Kid" }] "T1" _ (by decide)

theorem strData_append (a b : String) : (a ++ b).data = a.data ++ b.data := rfl

theorem dash_beq_digit {n : Nat} (h : n < 10) : (('-' : Char) == Nat.digitChar n) = false := by
  interval_cases n <;> decide

theorem digit_beq_dash {n : Nat} (h : n < 10) : ((Nat.digitChar n == '-')) = false := by
  interval_cases n <;> decide

theorem digitChar_inj {a b : Nat} (ha : a < 10) (hb : b < 10) :
    Nat.digitChar a = Nat.digitChar b ↔ a = b := by
  interval_cases a <;> interval_cases b <;> decide

theorem numStrAux_small {f n : Nat} (hf : 0 < f) (h : n < 10) :
    numStrAux f n = [Nat.digitChar n] := by
  cases f with
  | zero => omega
  | succ f2 => simp [numStrAux, h]

theorem numStrAux_step {f n : Nat} (hf : 0 < f) (h : 10 ≤ n) :
    numStrAux f n = numStrAux (f - 1) (n / 10) ++ [Nat.digitChar (n % 10)] := by
  cases f with
  | zero => omega
  | succ f2 =>
    have h2 : ¬ n < 10 := by omega
    simp [numStrAux, h2]

theorem numStrAux_fuel {n : Nat} : ∀ {f g : Nat}, n < f → n < g → numStrAux f n = numStrAux g n := by
  induction n using Nat.strong_induction_on with
  | _ n ih =>
    intro f g hf hg
    by_cases h10 : n < 10
    · rw [numStrAux_small (by omega) h10, numStrAux_small (by omega) h10]
    · have hs1 : numStrAux f n = numStrAux (f - 1) (n / 10) ++ [Nat.digitChar (n % 10)] :=
        numStrAux_step (by omega) (by omega)
      have hs2 : numStrAux g n = numStrAux (g - 1) (n / 10) ++ [Nat.digitChar (n % 10)] :=
        numStrAux_step (by omega) (by omega)
      rw [hs1, hs2,
        ih (n / 10) (by omega) (show n / 10 < f - 1 by omega) (show n / 10 < g - 1 by omega)]

theorem numStr_shift {n f : Nat} (hf : n < f) : numStrAux f n = numStrAux (n + 1) n :=
  numStrAux_fuel hf (Nat.lt_succ_self n)

theorem numStr_data_one {n : Nat} (h : n < 10) : (numStr n).data = [Nat.digitChar n] := by
  show numStrAux (n + 1) n = _
  exact numStrAux_small (by omega) h

theorem numStr_data_two {m : Nat} (h1 : 10 ≤ m) (h2 : m ≤ 99) : (numStr m).data = pad2chars m := by
  show numStrAux (m + 1) m = _
  rw [numStrAux_step (by omega) h1, Nat.add_sub_cancel, numStr_shift (show m / 10 < m by omega),
    numStrAux_small (by omega) (show m / 10 < 10 by omega)]
  simp [pad2chars]

theorem numStr_data_four {y : Nat} (h1 : 1000 ≤ y) (h2 : y ≤ 9999) :
    (numStr y).data = pad4chars y := by
  show numStrAux (y + 1) y = _
  rw [numStrAux_step (by omega) (by omega), Nat.add_sub_cancel,
    numStr_shift (show y / 10 < y by omega),
    numStrAux_step (by omega) (show 10 ≤ y / 10 by omega), Nat.add_sub_cancel,
    numStr_shift (show y / 10 / 10 < y / 10 by omega),
    numStrAux_step (by omega) (show 10 ≤ y / 10 / 10 by omega), Nat.add_sub_cancel,
    numStrAux_small (by omega) (show y / 10 / 10 / 10 < 10 by omega)]
  have e2 : y / 10 / 10 = y / 100 := by omega
  have e3 : y / 10 / 10 / 10 = y / 1000 := by omega
  rw [e3, e2]
  simp [pad4chars]

theorem pad2Str_data {m : Nat} (h2 : m ≤ 99) : (pad2Str m).data = pad2chars m := by
  by_cases hm : m < 10
  · have : pad2Str m = "0" ++ numStr m := by simp [pad2Str, hm]
    rw [this, strData_append, numStr_data_one hm]
    have e1 : m / 10 = 0 := by omega
    have e2 : m % 10 = m := by omega
    simp [pad2chars, e1, e2]
    rfl
  · have : pad2Str m = numStr m := by simp [pad2Str, hm]
    rw [this, numStr_data_two (by omega) h2]

theorem boolEqDecide {b : Bool} {p : Prop} [Decidable p] (h : b = true ↔ p) : b = decide p := by
  cases b with
  | false =>
    have hnp : ¬ p := fun hp => by simpa using h.mpr hp
    simp [hnp]
  | true => simp [h.mp rfl]

theorem starts_year {Y y m d : Nat} (hY1 : 1000 ≤ Y) (hY2 : Y ≤ 9999)
    (hy1 : 1000 ≤ y) (hy2 : y ≤ 9999) :
    strStarts (numStr Y ++ "-") (renderDate y m d) = decide (y = Y) := by
  apply boolEqDecide
  have hpat : (numStr Y ++ "-").data = pad4chars Y ++ ['-'] := by
    rw [strData_append, numStr_data_four hY1 hY2]
  rw [strStarts, hpat]
  show listStarts _ (pad4chars y ++ '-' :: pad2chars m ++ '-' :: pad2chars d) = true ↔ _
  simp only [pad4chars, pad2chars, List.cons_append, List.nil_append, listStarts,
    Bool.and_eq_true, beq_iff_eq, beq_self_eq_true, true_and, and_true]
  constructor
  · rintro ⟨e1, e2, e3, e4⟩
    have g1 := (digitChar_inj (by omega) (by omega)).mp e1
    have g2 := (digitChar_inj (by omega) (by omega)).mp e2
    have g3 := (digitChar_inj (by omega) (by omega)).mp e3
    have g4 := (digitChar_inj (by omega) (by omega)).mp e4
    omega
  · rintro rfl
    exact ⟨rfl, rfl, rfl, rfl⟩

theorem starts_year_month {Y M y m d : Nat} (hY1 : 1000 ≤ Y) (hY2 : Y ≤ 9999)
    (hM2 : M ≤ 99) (hy1 : 1000 ≤ y) (hy2 : y ≤ 9999) (hm2 : m ≤ 99) :
    strStarts (numStr Y ++ "-" ++ pad2Str M ++ "-") (renderDate y m d) =
      (decide (y = Y) && decide (m = M)) := by
  have hd : (decide (y = Y) && decide (m = M)) = decide (y = Y ∧ m = M) := by
    by_cases h1 : y = Y <;> by_cases h2 : m = M <;> simp [h1, h2]
  rw [hd]
  apply boolEqDecide
  have hpat : (numStr Y ++ "-" ++ pad2Str M ++ "-").data =
      pad4chars Y ++ '-' :: pad2chars M ++ ['-'] := by
    rw [strData_append, strData_append, strData_append, numStr_data_four hY1 hY2,
      pad2Str_data hM2]
    rfl
  rw [strStarts, hpat]
  show listStarts _ (pad4chars y ++ '-' :: pad2chars m ++ '-' :: pad2chars d) = true ↔ _
  simp only [pad4chars, pad2chars, List.cons_append, List.nil_append, listStarts,
    Bool.and_eq_true, beq_iff_eq, beq_self_eq_true, true_and, and_true]
  constructor
  · rintro ⟨e1, e2, e3, e4, f1, f2⟩
    have g1 := (digitChar_inj (by omega) (by omega)).mp e1
    have g2 := (digitChar_inj (by omega) (by omega)).mp e2
    have g3 := (digitChar_inj (by omega) (by omega)).mp e3
    have g4 := (digitChar_inj (by omega) (by omega)).mp e4
    have g5 := (digitChar_inj (by omega) (by omega)).mp f1
    have g6 := (digitChar_inj (by omega) (by omega)).mp f2
    omega
  · rintro ⟨rfl, rfl⟩
    exact ⟨rfl, rfl, rfl, rfl, rfl, rfl⟩

theorem hasSub_month {M y m d : Nat} (hM2 : M ≤ 99) (hy1 : 1000 ≤ y) (hy2 : y ≤ 9999)
    (hm2 : m ≤ 99) (hd2 : d ≤ 99) :
    strHasSub ("-" ++ pad2Str M ++ "-") (renderDate y m d) = decide (m = M) := by
  apply boolEqDecide
  have hpat : ("-" ++ pad2Str M ++ "-").data = '-' :: pad2chars M ++ ['-'] := by
    rw [strData_append, strData_append, pad2Str_data hM2]
    rfl
  rw [strHasSub, hpat]
  show listHasSub _ (pad4chars y ++ '-' :: pad2chars m ++ '-' :: pad2chars d) = true ↔ _
  have n1 := dash_beq_digit (show y / 1000 < 10 by omega)
  have n2 := dash_beq_digit (show y / 100 % 10 < 10 by omega)
  have n3 := dash_beq_digit (show y / 10 % 10 < 10 by omega)
  have n4 := dash_beq_digit (show y % 10 < 10 by omega)
  have n5 := dash_beq_digit (show m / 10 < 10 by omega)
  have n6 := dash_beq_digit (show m % 10 < 10 by omega)
  have n7 := dash_beq_digit (show d / 10 < 10 by omega)
  have n8 := dash_beq_digit (show d % 10 < 10 by omega)
  simp only [pad4chars, pad2chars, List.cons_append, List.nil_append, listHasSub, listStarts,
    n1, n2, n3, n4, n5, n6, n7, n8, beq_self_eq_true, Bool.true_and, Bool.false_and,
    Bool.and_false, Bool.and_true, Bool.or_false, Bool.false_or, Bool.and_eq_true, beq_iff_eq]
  constructor
  · rintro ⟨f1, f2⟩
    have g5 := (digitChar_inj (by omega) (by omega)).mp f1
    have g6 := (digitChar_inj (by omega) (by omega)).mp f2
    omega
  · rintro rfl
    exact ⟨rfl, rfl⟩

/-- C7 (amended): on a well-formed `YYYY-MM-DD` event date, `part_000`'s
admin filter behaves exactly as the claim says — month AND year when both
are given (match iff the date is in that exact year-month), month across
any year when only month is given, year across any month when only year is
given, everything when neither is given — but the server.js Mongo variant
`$or`-combines the two constraints, so with both given a record matches iff
it is in that month of ANY year or anywhere in that year. -/
theorem c7_admin_date_filter :
    ∀ Y M y m d : Nat, 1000 ≤ Y → Y ≤ 9999 → 1 ≤ M → M ≤ 12 →
      1000 ≤ y → y ≤ 9999 → 1 ≤ m → m ≤ 12 → 1 ≤ d → d ≤ 31 →
      (P000.adminMatch (some M) (some Y) (renderDate y m d) =
        (decide (y = Y) && decide (m = M)))
      ∧ (P000.adminMatch (some M) none (renderDate y m d) = decide (m = M))
      ∧ (P000.adminMatch none (some Y) (renderDate y m d) = decide (y = Y))
      ∧ (P000.adminMatch none none (renderDate y m d) = true)
      ∧ (SrvMongo.adminMatch (some M) (some Y) (renderDate y m d) =
        (decide (m = M) || decide (y = Y)))
      ∧ (SrvMongo.adminMatch (some M) none (renderDate y m d) = decide (m = M))
      ∧ (SrvMongo.adminMatch none (some Y) (renderDate y m d) = decide (y = Y))
      ∧ (SrvMongo.adminMatch none none (renderDate y m d) = true) := by
  intro Y M y m d hY1 hY2 hM1 hM2 hy1 hy2 hm1 hm2 hd1 hd2
  have hMr : 1 ≤ M ∧ M ≤ 12 := ⟨hM1, hM2⟩
  have hM99 : M ≤ 99 := by omega
  have hm99 : m ≤ 99 := by omega
  have hd99 : d ≤ 99 := by omega
  refine ⟨?_, ?_, ?_, ?_, ?_, ?_, ?_, ?_⟩
  · simp only [P000.adminMatch, if_pos hMr]
    exact starts_year_month hY1 hY2 hM99 hy1 hy2 hm99
  · simp only [P000.adminMatch, if_pos hMr]
    exact hasSub_month hM99 hy1 hy2 hm99 hd99
  · simp only [P000.adminMatch]
    exact starts_year hY1 hY2 hy1 hy2
  · simp only [P000.adminMatch]
  · simp only [SrvMongo.adminMatch, if_pos hMr]
    rw [hasSub_month hM99 hy1 hy2 hm99 hd99, starts_year hY1 hY2 hy1 hy2]
    simp [List.any]
  · simp only [SrvMongo.adminMatch, if_pos hMr]
    rw [hasSub_month hM99 hy1 hy2 hm99 hd99]
    simp [List.any]
  · simp only [SrvMongo.adminMatch]
    rw [starts_year hY1 hY2 hy1 hy2]
    simp [List.any]
  · simp only [SrvMongo.adminMatch]
    rfl

/-- Closed instance of C7 (amended): with month=3 and year=2025, a record
dated 2024-03-15 is filtered out by `part_000` but matched by the server.js
Mongo variant. -/
theorem c7_admin_date_filter_witness :
    P000.adminMatch (some 3) (some 2025) (renderDate 2024 3 15) = false
    ∧ SrvMongo.adminMatch (some 3) (some 2025) (renderDate 2024 3 15) = true := by
  have h := c7_admin_date_filter 2025 3 2024 3 15 (by decide) (by decide) (by decide) (by decide)
    (by decide) (by decide) (by decide) (by decide) (by decide) (by decide)
  constructor
  · rw [h.1]
    decide
  · rw [h.2.2.2.2.1]
    decide

/-- C6 (amended): the admin comparator of the Mongo variants implements the
month → day → year → name chain over EFFECTIVE dates: a nonempty
unparseable date makes the comparator answer -1 on the left (and 1 on the
right), so such records float to the top; but an ABSENT date is replaced by
the epoch `1970-01-01` and then participates in the ordinary chain — it
does not, in general, come before all valid dates (see the
counterexample). -/
theorem c6_sort_chain :
    effDate "" = some (1970, 1, 1)
    ∧ (∀ a b : EventRecord, effDate a.dateOfOccasion = none → cmpAdmin a b = -1)
    ∧ (∀ a b : EventRecord, ∀ x : Nat × Nat × Nat, effDate a.dateOfOccasion = some x →
        effDate b.dateOfOccasion = none → cmpAdmin a b = 1)
    ∧ (∀ a b : EventRecord, ∀ x y : Nat × Nat × Nat, effDate a.dateOfOccasion = some x →
        effDate b.dateOfOccasion = some y →
        ((cmpAdmin a b < 0 ↔ specChainCmp x y a.name b.name = Ordering.lt)
         ∧ (cmpAdmin a b = 0 ↔ specChainCmp x y a.name b.name = Ordering.eq))) := by
  refine ⟨rfl, ?_, ?_, ?_⟩
  · intro a b ha
    simp [cmpAdmin, ha, cmpDates]
  · intro a b x ha hb
    simp [cmpAdmin, ha, hb, cmpDates]
  · intro a b x y ha hb
    obtain ⟨ya, ma, da⟩ := x
    obtain ⟨yb, mb, db⟩ := y
    simp only [cmpAdmin, ha, hb, cmpDates, specChainCmp, cmp3]
    rcases Nat.lt_trichotomy ma mb with hm | hm | hm
    · have h1 : ma ≠ mb := Nat.ne_of_lt hm
      simp only [h1, if_pos hm, if_true, ite_true]
      refine ⟨⟨fun h => ?_, fun h => ?_⟩, fun h => ?_, fun h => ?_⟩ <;> (simp_all; try omega)
    · subst hm
      simp only [ne_eq, not_true_eq_false, if_neg (lt_irrefl ma), ite_false, if_false]
      rcases Nat.lt_trichotomy da db with hd | hd | hd
      · have h1 : da ≠ db := Nat.ne_of_lt hd
        simp only [h1, if_pos hd]
        refine ⟨⟨fun h => ?_, fun h => ?_⟩, fun h => ?_, fun h => ?_⟩ <;> (simp_all; try omega)
      · subst hd
        simp only [ne_eq, not_true_eq_false, if_neg (lt_irrefl da)]
        rcases Nat.lt_trichotomy ya yb with hy | hy | hy
        · have h1 : ya ≠ yb := Nat.ne_of_lt hy
          simp only [h1, if_pos hy]
          refine ⟨⟨fun h => ?_, fun h => ?_⟩, fun h => ?_, fun h => ?_⟩ <;> (simp_all; try omega)
        · subst hy
          simp only [ne_eq, not_true_eq_false, if_neg (lt_irrefl ya)]
          cases hc : compare a.name b.name <;> simp [strCmpInt, hc]
        · have h1 : ya ≠ yb := Nat.ne_of_gt hy
          have h2 : ¬ ya < yb := by omega
          simp only [h1, if_neg h2, if_pos hy]
          refine ⟨⟨fun h => ?_, fun h => ?_⟩, fun h => ?_, fun h => ?_⟩ <;> (simp_all; try omega)
      · have h1 : da ≠ db := Nat.ne_of_gt hd
        have h2 : ¬ da < db := by omega
        simp only [h1, if_neg h2, if_pos hd]
        refine ⟨⟨fun h => ?_, fun h => ?_⟩, fun h => ?_, fun h => ?_⟩ <;> (simp_all; try omega)
    · have h1 : ma ≠ mb := Nat.ne_of_gt hm
      have h2 : ¬ ma < mb := by omega
      simp only [h1, if_neg h2, if_pos hm]
      refine ⟨⟨fun h => ?_, fun h => ?_⟩, fun h => ?_, fun h => ?_⟩ <;> (simp_all; try omega)

/-- Closed instance of C6 (amended): among valid dates a January date
precedes a March date regardless of year. -/
theorem c6_sort_chain_witness :
    cmpAdmin (recDN "2025-01-05" "A") (recDN "2024-03-15" "B") < 0 ↔
      specChainCmp (2025, 1, 5) (2024, 3, 15) "A" "B" = Ordering.lt :=
  (c6_sort_chain.2.2.2 (recDN "2025-01-05" "A") (recDN "2024-03-15" "B")
    (2025, 1, 5) (2024, 3, 15) rfl rfl).1

/-- C10: the flat-CSV variant materializes only `family.slice(0, 10)`: with
a valid primary, an unexhausted quota and more than 10 family members, the
request still succeeds (status 200), the CSV gains exactly the batch built
from the first 10 members (11 rows), and the batch is literally identical
to the one built from `family.take 10` — members at index ≥ 10 produce no
stored record. -/
theorem c10_family_capped_at_ten :
    ∀ (st : FlatCsv.FlatState) (sa : String) (p : FlatCsv.FlatPerson)
      (fam : List FlatCsv.FlatPerson),
      jsFalsy p.email = false → jsFalsy p.name = false →
      lookupCount st.ledger (lowerStr (p.email.getD "")) < 3 →
      10 < fam.length →
      (FlatCsv.save st sa (some p) fam).1 = (200, "Data saved to CSV and admin successfully!")
      ∧ (FlatCsv.save st sa (some p) fam).2.csvRows =
          (if st.csvAppend then st.csvRows else []) ++ FlatCsv.materialize p fam sa
      ∧ (FlatCsv.materialize p fam sa).length = 11
      ∧ FlatCsv.materialize p fam sa = FlatCsv.materialize p (fam.take 10) sa := by
  intro st sa p fam he hn hq hlen
  have hnot : ¬ 3 ≤ lookupCount st.ledger (lowerStr (p.email.getD "")) := by omega
  refine ⟨?_, ?_, ?_, ?_⟩
  · simp [FlatCsv.save, he, hn, hnot]
  · simp only [FlatCsv.save, he, hn, hnot]
    cases hap : st.csvAppend <;> simp [hap]
  · simp only [FlatCsv.materialize, List.length_cons, List.length_map, List.length_take]
    omega
  · simp [FlatCsv.materialize, List.take_take]

/-- Closed instance of C10: a primary with 11 family members yields a
successful save and an 11-row batch. -/
theorem c10_family_capped_at_ten_witness :
    (FlatCsv.save flatInit "T1" (some { name := some "P", email := some "p@x.com" })
        (List.replicate 11 { name := some "Kid" })).1 =
      (200, "Data saved to CSV and admin successfully!")
    ∧ (FlatCsv.materialize { name := some "P", email := some "p@x.com" }
        (List.replicate 11 { name := some "Kid" }) "T1").length = 11 := by
  have h := c10_family_capped_at_ten flatInit "T1"
    { name := some "P", email := some "p@x.com" } (List.replicate 11 { name := some "Kid" })
    rfl rfl (by decide) (by decide)
  exact ⟨h.1, h.2.2.1⟩

end FamilyEvent
